import Mathlib

/-!
Shallow embedding of the placement simulation engine of
`python_agent/simulation/gui.py` (class `BinPackingSimulation`), together
with the async command interface (`place_item`, `execute_command`) and the
statistics view (`get_simulation_state`).

Machine reals (Python floats) are modelled as rationals; item and bin ids
(Python ints) as naturals.  A Python dict of bins becomes an association
list keyed by bin id, which preserves insertion order exactly as the dict
iteration in the source does.
-/

/-- Mirrors the `PlacedItem` dataclass of `gui.py`. -/
structure PlacedItem where
  item_id : Nat
  item_type : String
  bin_id : Nat
  x : ℚ
  y : ℚ
  width : ℚ
  height : ℚ
  shape : String
deriving Repr, DecidableEq

/-- One entry of the `self.bins` dict: `{"width": w, "height": h, "items": [...]}`. -/
structure BinData where
  width : ℚ
  height : ℚ
  items : List PlacedItem
deriving Repr, DecidableEq

/-- The simulation state: the `self.bins` dict as an association list
(key = bin id), in insertion order. -/
abbrev SimState := List (Nat × BinData)

/-- Dict lookup `self.bins[bin_id]` (first entry with the key; keys are unique). -/
def lookupBin : SimState → Nat → Option BinData
  | [], _ => none
  | (k, v) :: rest, i => if k = i then some v else lookupBin rest i

/-- In-place mutation of the dict entry at a key: replaces the value at the
first occurrence of the key, keeping order. -/
def updateBin : SimState → Nat → BinData → SimState
  | [], _, _ => []
  | (k, v) :: rest, i, bd => if k = i then (k, bd) :: rest else (k, v) :: updateBin rest i bd

/-- The initial `self.bins` dict set up in `BinPackingSimulation.__init__`. -/
def initBins : SimState :=
  [ (0, ⟨220, 220, []⟩)
  , (1, ⟨180, 200, []⟩)
  , (2, ⟨200, 180, []⟩)
  , (3, ⟨160, 160, []⟩) ]

/-- `items_overlap` of `gui.py`:
`not (i1.x + i1.w <= i2.x or i2.x + i2.w <= i1.x or i1.y + i1.h <= i2.y or i2.y + i2.h <= i1.y)`. -/
def items_overlap (item1 item2 : PlacedItem) : Bool :=
  decide (¬ (item1.x + item1.width ≤ item2.x ∨
             item2.x + item2.width ≤ item1.x ∨
             item1.y + item1.height ≤ item2.y ∨
             item2.y + item2.height ≤ item1.y))

/-- The inline fit test of `place_item_sync`: the candidate is rejected when
`x + width > bin.width or y + height > bin.height`; this is the acceptance
side of that test.  Note the source checks nothing about `x ≥ 0` or `y ≥ 0`. -/
def fits_in_bin (bd : BinData) (x y width height : ℚ) : Bool :=
  decide (¬ (x + width > bd.width ∨ y + height > bd.height))

/-- Rejection string `f"Error: Bin {bin_id} does not exist"`. -/
def binMissingMsg (bin_id : Nat) : String :=
  "Error: Bin " ++ toString bin_id ++ " does not exist"

/-- Rejection string `f"Error: Item {item_id} does not fit in bin {bin_id}"`. -/
def noFitMsg (item_id bin_id : Nat) : String :=
  "Error: Item " ++ toString item_id ++ " does not fit in bin " ++ toString bin_id

/-- Rejection string
`f"Error: Item {item_id} overlaps with existing item {existing.item_id}"`. -/
def overlapMsg (item_id other_id : Nat) : String :=
  "Error: Item " ++ toString item_id ++ " overlaps with existing item " ++ toString other_id

/-- Success string `f"Successfully placed item {item_id} in bin {bin_id}"`. -/
def successMsg (item_id bin_id : Nat) : String :=
  "Successfully placed item " ++ toString item_id ++ " in bin " ++ toString bin_id

/-- `place_item_sync` of `gui.py`: validates bin existence, then fit, then
overlap against the items already in the target bin (first overlapping item
wins, as in the source's `for` loop), and on success appends the new item to
that bin.  Returns the message returned by the Python method together with
the state after the call (the Python method mutates `self.bins` in place). -/
def place_item_sync (bins : SimState) (item_id bin_id : Nat) (x y width height : ℚ)
    (shape item_type : String) : String × SimState :=
  match lookupBin bins bin_id with
  | none => (binMissingMsg bin_id, bins)
  | some bin_data =>
    if fits_in_bin bin_data x y width height = false then
      (noFitMsg item_id bin_id, bins)
    else
      let new_item : PlacedItem :=
        ⟨item_id, item_type, bin_id, x, y, width, height, shape⟩
      match bin_data.items.find? (fun existing => items_overlap new_item existing) with
      | some existing => (overlapMsg item_id existing.item_id, bins)
      | none =>
          (successMsg item_id bin_id,
           updateBin bins bin_id
             ⟨bin_data.width, bin_data.height, bin_data.items ++ [new_item]⟩)

/-- `reset_simulation_sync` of `gui.py`: `for bin_data in self.bins.values():
bin_data["items"].clear()`. -/
def reset_simulation_sync (bins : SimState) : SimState :=
  bins.map (fun p => (p.1, { p.2 with items := [] }))

/-- The commands carried by `self.command_queue` (the `"type"` field of the
dicts built by `place_item`, `reset_simulation` and the stats refresh). -/
inductive Command where
  | place (item_id bin_id : Nat) (x y width height : ℚ) (shape item_type : String)
  | reset
  | update_stats
deriving Repr, DecidableEq

/-- `execute_command` of `gui.py`: dispatches a dequeued command to the sync
handler.  The string returned by `place_item_sync` is discarded, exactly as in
the source; `update_stats` only refreshes the display and leaves state as is. -/
def execute_command (bins : SimState) (command : Command) : SimState :=
  match command with
  | .place item_id bin_id x y width height shape item_type =>
      (place_item_sync bins item_id bin_id x y width height shape item_type).2
  | .reset => reset_simulation_sync bins
  | .update_stats => bins

/-- Draining a queue of commands in FIFO order through `execute_command`. -/
def applyAll (bins : SimState) : List Command → SimState
  | [] => bins
  | c :: cs => applyAll (execute_command bins c) cs

/-- `place_item` of `gui.py`, the public thread-safe API: it builds the
command dict, enqueues it, and returns
`f"Placed item {item_id} in bin {bin_id} at ({x}, {y})"` — built before any
validation has run.  Modelled as the returned string paired with the command
that was enqueued. -/
def place_item (item_id bin_id : Nat) (x y width height : ℚ)
    (shape item_type : String) : String × Command :=
  ("Placed item " ++ toString item_id ++ " in bin " ++ toString bin_id ++
     " at (" ++ toString x ++ ", " ++ toString y ++ ")",
   Command.place item_id bin_id x y width height shape item_type)

/-- One bin of the state view built by `get_simulation_state`. -/
structure BinView where
  width : ℚ
  height : ℚ
  items : List PlacedItem
  utilization : ℚ
deriving Repr, DecidableEq

/-- The dict returned by `get_simulation_state`. -/
structure SimView where
  bins : List (Nat × BinView)
  total_items : Nat
  total_utilization : ℚ
deriving Repr, DecidableEq

/-- The per-bin utilization computed inside `get_simulation_state`'s loop:
`(used_area / total_area * 100) if total_area > 0 else 0` with
`used_area = sum(item.width * item.height for item in items)`. -/
def bin_utilization (bd : BinData) : ℚ :=
  let used_area := (bd.items.map (fun item => item.width * item.height)).sum
  let total_area := bd.width * bd.height
  if total_area > 0 then used_area / total_area * 100 else 0

/-- `get_simulation_state` of `gui.py`: builds the per-bin views, sums item
counts and utilizations over the loop, then divides the accumulated
utilization by `len(self.bins)` unconditionally. -/
def get_simulation_state (bins : SimState) : SimView :=
  let binViews := bins.map (fun p =>
    (p.1, (⟨p.2.width, p.2.height, p.2.items, bin_utilization p.2⟩ : BinView)))
  { bins := binViews
    total_items := (bins.map (fun p => p.2.items.length)).sum
    total_utilization :=
      ((bins.map (fun p => bin_utilization p.2)).sum) / (bins.length : ℚ) }

/-- State after the first step of the §8 scenario: item 1 placed at
(0,0,50,50) in bin 0, starting from the initial configuration. -/
def scenario_s1 : SimState :=
  (place_item_sync initBins 1 0 0 0 50 50 "RECTANGLE" "Rectangle A").2

/-- State after the last step of the §8 scenario: item 3 additionally placed
at (60,0,50,50) in bin 0 (the attempt to place item 2 did not change state). -/
def scenario_s3 : SimState :=
  (place_item_sync scenario_s1 3 0 60 0 50 50 "RECTANGLE" "Rectangle C").2

/-! ### Basic lemmas about the embedded operations -/

theorem fits_in_bin_iff (bd : BinData) (x y width height : ℚ) :
    fits_in_bin bd x y width height = true ↔
      (x + width ≤ bd.width ∧ y + height ≤ bd.height) := by
  simp [fits_in_bin, not_or, not_lt]

theorem items_overlap_eq_true_iff (item1 item2 : PlacedItem) :
    items_overlap item1 item2 = true ↔
      ¬ (item1.x + item1.width ≤ item2.x ∨
         item2.x + item2.width ≤ item1.x ∨
         item1.y + item1.height ≤ item2.y ∨
         item2.y + item2.height ≤ item1.y) := by
  simp [items_overlap]

theorem items_overlap_comm (item1 item2 : PlacedItem) :
    items_overlap item1 item2 = items_overlap item2 item1 := by
  simp only [items_overlap]
  exact decide_eq_decide.mpr (by tauto)

theorem lookupBin_mem {bins : SimState} {i : Nat} {bd : BinData}
    (h : lookupBin bins i = some bd) : (i, bd) ∈ bins := by
  induction bins with
  | nil => simp [lookupBin] at h
  | cons p rest ih =>
    obtain ⟨k, v⟩ := p
    by_cases hk : k = i
    · subst hk
      simp [lookupBin] at h
      subst h
      exact List.mem_cons_self _ _
    · simp [lookupBin, hk] at h
      exact List.mem_cons_of_mem _ (ih h)

theorem mem_updateBin {bins : SimState} {i : Nat} {bd : BinData} {p : Nat × BinData}
    (h : p ∈ updateBin bins i bd) : p = (i, bd) ∨ p ∈ bins := by
  induction bins with
  | nil => simp [updateBin] at h
  | cons q rest ih =>
    obtain ⟨k, v⟩ := q
    by_cases hk : k = i
    · subst hk
      simp [updateBin] at h
      rcases h with h | h
      · exact Or.inl h
      · exact Or.inr (List.mem_cons_of_mem _ h)
    · simp [updateBin, hk] at h
      rcases h with h | h
      · exact Or.inr (by simp [h])
      · rcases ih h with h' | h'
        · exact Or.inl h'
        · exact Or.inr (List.mem_cons_of_mem _ h')

/-- Complete case analysis of `place_item_sync`: the four return paths of the
source method, with the validation facts that hold on each. -/
theorem place_item_sync_spec (bins : SimState) (item_id bin_id : Nat)
    (x y width height : ℚ) (shape item_type : String) :
    (lookupBin bins bin_id = none ∧
       place_item_sync bins item_id bin_id x y width height shape item_type =
         (binMissingMsg bin_id, bins)) ∨
    (∃ bd, lookupBin bins bin_id = some bd ∧
       fits_in_bin bd x y width height = false ∧
       place_item_sync bins item_id bin_id x y width height shape item_type =
         (noFitMsg item_id bin_id, bins)) ∨
    (∃ bd e, lookupBin bins bin_id = some bd ∧
       fits_in_bin bd x y width height = true ∧
       e ∈ bd.items ∧
       items_overlap ⟨item_id, item_type, bin_id, x, y, width, height, shape⟩ e = true ∧
       place_item_sync bins item_id bin_id x y width height shape item_type =
         (overlapMsg item_id e.item_id, bins)) ∨
    (∃ bd, lookupBin bins bin_id = some bd ∧
       fits_in_bin bd x y width height = true ∧
       (∀ e ∈ bd.items,
          items_overlap ⟨item_id, item_type, bin_id, x, y, width, height, shape⟩ e = false) ∧
       place_item_sync bins item_id bin_id x y width height shape item_type =
         (successMsg item_id bin_id,
          updateBin bins bin_id
            ⟨bd.width, bd.height,
             bd.items ++ [⟨item_id, item_type, bin_id, x, y, width, height, shape⟩]⟩)) := by
  unfold place_item_sync
  cases hl : lookupBin bins bin_id with
  | none => exact Or.inl ⟨rfl, rfl⟩
  | some bd =>
    by_cases hf : fits_in_bin bd x y width height = false
    · exact Or.inr (Or.inl ⟨bd, rfl, hf, by simp [hf]⟩)
    · have hf' : fits_in_bin bd x y width height = true := by
        simpa using hf
      cases hfind : bd.items.find?
          (fun existing =>
            items_overlap ⟨item_id, item_type, bin_id, x, y, width, height, shape⟩ existing) with
      | some e =>
        refine Or.inr (Or.inr (Or.inl ⟨bd, e, rfl, hf', ?_, ?_, by simp [hf, hfind]⟩))
        · exact List.mem_of_find?_eq_some hfind
        · exact List.find?_some hfind
      | none =>
        refine Or.inr (Or.inr (Or.inr ⟨bd, rfl, hf', ?_, by simp [hf, hfind]⟩))
        intro e he
        have := List.find?_eq_none.mp hfind e he
        simpa using this

/-! ### State invariants -/

/-- Every placed item lies inside its bin on the two sides the source's fit
test controls: `x + width ≤ bin.width` and `y + height ≤ bin.height`. -/
def BoundsOK (bins : SimState) : Prop :=
  ∀ p ∈ bins, ∀ item ∈ p.2.items,
    item.x + item.width ≤ p.2.width ∧ item.y + item.height ≤ p.2.height

/-- No two items of one bin overlap (pairwise over the bin's item list). -/
def NoOverlapOK (bins : SimState) : Prop :=
  ∀ p ∈ bins, p.2.items.Pairwise (fun a b => items_overlap a b = false)

theorem BoundsOK_place (bins : SimState) (item_id bin_id : Nat)
    (x y width height : ℚ) (shape item_type : String) (hB : BoundsOK bins) :
    BoundsOK (place_item_sync bins item_id bin_id x y width height shape item_type).2 := by
  rcases place_item_sync_spec bins item_id bin_id x y width height shape item_type with
    ⟨_, heq⟩ | ⟨bd, _, _, heq⟩ | ⟨bd, e, _, _, _, _, heq⟩ |
    ⟨bd, hl, hfit, _, heq⟩
  · rw [heq]; exact hB
  · rw [heq]; exact hB
  · rw [heq]; exact hB
  · rw [heq]
    intro p hp item hitem
    rcases mem_updateBin hp with rfl | hmem
    · rcases List.mem_append.mp hitem with hold | hnew
      · exact hB (bin_id, bd) (lookupBin_mem hl) item hold
      · have : item = ⟨item_id, item_type, bin_id, x, y, width, height, shape⟩ := by
          simpa using hnew
        subst this
        exact (fits_in_bin_iff bd x y width height).mp hfit
    · exact hB p hmem item hitem

theorem NoOverlapOK_place (bins : SimState) (item_id bin_id : Nat)
    (x y width height : ℚ) (shape item_type : String) (hN : NoOverlapOK bins) :
    NoOverlapOK (place_item_sync bins item_id bin_id x y width height shape item_type).2 := by
  rcases place_item_sync_spec bins item_id bin_id x y width height shape item_type with
    ⟨_, heq⟩ | ⟨bd, _, _, heq⟩ | ⟨bd, e, _, _, _, _, heq⟩ |
    ⟨bd, hl, _, hnone, heq⟩
  · rw [heq]; exact hN
  · rw [heq]; exact hN
  · rw [heq]; exact hN
  · rw [heq]
    intro p hp
    rcases mem_updateBin hp with rfl | hmem
    · refine List.pairwise_append.mpr ⟨hN (bin_id, bd) (lookupBin_mem hl), by simp, ?_⟩
      intro a ha b hb
      have hb' : b = ⟨item_id, item_type, bin_id, x, y, width, height, shape⟩ := by
        simpa using hb
      subst hb'
      rw [← items_overlap_comm]
      exact hnone a ha
    · exact hN p hmem

theorem BoundsOK_execute (bins : SimState) (c : Command) (hB : BoundsOK bins) :
    BoundsOK (execute_command bins c) := by
  cases c with
  | place item_id bin_id x y width height shape item_type =>
    exact BoundsOK_place bins item_id bin_id x y width height shape item_type hB
  | reset =>
    intro p hp item hitem
    simp [execute_command, reset_simulation_sync] at hp
    obtain ⟨a, b, hab, rfl⟩ := hp
    simp at hitem
  | update_stats => exact hB

theorem NoOverlapOK_execute (bins : SimState) (c : Command) (hN : NoOverlapOK bins) :
    NoOverlapOK (execute_command bins c) := by
  cases c with
  | place item_id bin_id x y width height shape item_type =>
    exact NoOverlapOK_place bins item_id bin_id x y width height shape item_type hN
  | reset =>
    intro p hp
    simp [execute_command, reset_simulation_sync] at hp
    obtain ⟨a, b, hab, rfl⟩ := hp
    simp
  | update_stats => exact hN

theorem BoundsOK_applyAll (bins : SimState) (cs : List Command) (hB : BoundsOK bins) :
    BoundsOK (applyAll bins cs) := by
  induction cs generalizing bins with
  | nil => exact hB
  | cons c cs ih => exact ih _ (BoundsOK_execute bins c hB)

theorem NoOverlapOK_applyAll (bins : SimState) (cs : List Command) (hN : NoOverlapOK bins) :
    NoOverlapOK (applyAll bins cs) := by
  induction cs generalizing bins with
  | nil => exact hN
  | cons c cs ih => exact ih _ (NoOverlapOK_execute bins c hN)

theorem BoundsOK_init : BoundsOK initBins := by
  intro p hp item hitem
  simp [initBins] at hp
  rcases hp with rfl | rfl | rfl | rfl <;> simp at hitem

theorem NoOverlapOK_init : NoOverlapOK initBins := by
  intro p hp
  simp [initBins] at hp
  rcases hp with rfl | rfl | rfl | rfl <;> simp

/-! ### The three rejection strings are pairwise distinct, for any ids -/

theorem binMissing_ne_noFit (b i b' : Nat) : binMissingMsg b ≠ noFitMsg i b' := by
  intro h
  have hd : (binMissingMsg b).data = (noFitMsg i b').data := by rw [h]
  have e1 : "Error: Bin ".data = ['E','r','r','o','r',':',' ','B','i','n',' '] := rfl
  have e2 : "Error: Item ".data = ['E','r','r','o','r',':',' ','I','t','e','m',' '] := rfl
  simp only [binMissingMsg, noFitMsg, String.data_append, e1, e2, List.cons_append,
    List.append_assoc] at hd
  simp at hd

theorem binMissing_ne_overlap (b i e : Nat) : binMissingMsg b ≠ overlapMsg i e := by
  intro h
  have hd : (binMissingMsg b).data = (overlapMsg i e).data := by rw [h]
  have e1 : "Error: Bin ".data = ['E','r','r','o','r',':',' ','B','i','n',' '] := rfl
  have e2 : "Error: Item ".data = ['E','r','r','o','r',':',' ','I','t','e','m',' '] := rfl
  simp only [binMissingMsg, overlapMsg, String.data_append, e1, e2, List.cons_append,
    List.append_assoc] at hd
  simp at hd

theorem noFit_ne_overlap (i b e : Nat) : noFitMsg i b ≠ overlapMsg i e := by
  intro h
  have hd : (noFitMsg i b).data = (overlapMsg i e).data := by rw [h]
  have e2 : "Error: Item ".data = ['E','r','r','o','r',':',' ','I','t','e','m',' '] := rfl
  simp only [noFitMsg, overlapMsg, String.data_append, e2, List.cons_append,
    List.append_assoc] at hd
  simp at hd

/-- A failing fit test returns the does-not-fit rejection, whatever the bin
contents are. -/
theorem place_item_sync_noFit {bins : SimState} {item_id bin_id : Nat}
    {x y width height : ℚ} {shape item_type : String} {bd : BinData}
    (hl : lookupBin bins bin_id = some bd)
    (hfit : fits_in_bin bd x y width height = false) :
    place_item_sync bins item_id bin_id x y width height shape item_type =
      (noFitMsg item_id bin_id, bins) := by
  unfold place_item_sync
  rw [hl]
  simp [hfit]

/-- Claim C1 (corrected), fit invariant: the source's fit test accepts a
candidate iff `x + width ≤ bin.width ∧ y + height ≤ bin.height` — it never
examines `x ≥ 0` or `y ≥ 0`; a candidate violating either of the two checked
conjuncts is rejected with the does-not-fit outcome and no state change; and
every item in every bin of every state reachable from the initial
configuration satisfies the two checked conjuncts in its bin. -/
theorem C1_fit_invariant :
    (∀ (bd : BinData) (x y width height : ℚ),
       fits_in_bin bd x y width height = true ↔
         (x + width ≤ bd.width ∧ y + height ≤ bd.height)) ∧
    (∀ (bins : SimState) (item_id bin_id : Nat) (x y width height : ℚ)
       (shape item_type : String) (bd : BinData),
       lookupBin bins bin_id = some bd →
       fits_in_bin bd x y width height = false →
       place_item_sync bins item_id bin_id x y width height shape item_type =
         (noFitMsg item_id bin_id, bins)) ∧
    (∀ cs : List Command, BoundsOK (applyAll initBins cs)) := by
  refine ⟨fits_in_bin_iff, ?_, ?_⟩
  · intro bins item_id bin_id x y width height shape item_type bd hl hfit
    exact place_item_sync_noFit hl hfit
  · intro cs
    exact BoundsOK_applyAll initBins cs BoundsOK_init

/-- Witness for C1: placing item 9 at (200,0,50,50) in the 220×220 bin 0
violates `x + width ≤ 220` and is rejected without mutating state. -/
theorem C1_fit_invariant_witness :
    place_item_sync initBins 9 0 200 0 50 50 "RECTANGLE" "Rectangle A" =
      (noFitMsg 9 0, initBins) :=
  C1_fit_invariant.2.1 initBins 9 0 200 0 50 50 "RECTANGLE" "Rectangle A"
    ⟨220, 220, []⟩ rfl (by norm_num [fits_in_bin])

/-- Counterexample to C1 as stated: the candidate item 1 at (-10, 0, 50, 50)
violates `x ≥ 0`, yet the fit test accepts it and the placement command is
applied — the item ends up placed in bin 0 with a negative x. -/
theorem C1_counterexample :
    fits_in_bin ⟨220, 220, []⟩ (-10) 0 50 50 = true ∧
    ¬ ((0:ℚ) ≤ -10) ∧
    (place_item_sync initBins 1 0 (-10) 0 50 50 "RECTANGLE" "Rectangle A").1 =
      successMsg 1 0 ∧
    lookupBin (place_item_sync initBins 1 0 (-10) 0 50 50 "RECTANGLE" "Rectangle A").2 0 =
      some ⟨220, 220, [⟨1, "Rectangle A", 0, -10, 0, 50, 50, "RECTANGLE"⟩]⟩ := by
  refine ⟨by norm_num [fits_in_bin], by norm_num, ?_, ?_⟩ <;>
    norm_num [place_item_sync, lookupBin, updateBin, initBins, fits_in_bin,
      items_overlap, List.find?]

/-- Claim C3, atomicity on rejection: whenever `place_item_sync` does not
return the success message — i.e. on the bin-missing, does-not-fit and
overlap paths — the state after the call is exactly the state before it. -/
theorem C3_rejection_atomic :
    ∀ (bins : SimState) (item_id bin_id : Nat) (x y width height : ℚ)
      (shape item_type : String),
      (place_item_sync bins item_id bin_id x y width height shape item_type).1 ≠
        successMsg item_id bin_id →
      (place_item_sync bins item_id bin_id x y width height shape item_type).2 = bins := by
  intro bins item_id bin_id x y width height shape item_type hne
  rcases place_item_sync_spec bins item_id bin_id x y width height shape item_type with
    ⟨_, heq⟩ | ⟨bd, _, _, heq⟩ | ⟨bd, e, _, _, _, _, heq⟩ | ⟨bd, _, _, _, heq⟩
  · rw [heq]
  · rw [heq]
  · rw [heq]
  · exact absurd (by rw [heq]) hne

/-- Witness for C3: placing into the never-configured bin 99 is rejected and
leaves the initial state untouched. -/
theorem C3_rejection_atomic_witness :
    (place_item_sync initBins 7 99 0 0 10 10 "RECTANGLE" "Rectangle A").2 = initBins :=
  C3_rejection_atomic initBins 7 99 0 0 10 10 "RECTANGLE" "Rectangle A" (by decide)

/-- Claim C5, fit precedes overlap: when the target bin exists and the fit
test fails, the outcome is the does-not-fit rejection with unchanged state,
for every content of the bin's item list — the overlap scan is never
consulted — and the does-not-fit message differs from every overlap message
for the same item. -/
theorem C5_fit_precedes_overlap :
    (∀ (bins : SimState) (item_id bin_id : Nat) (x y width height : ℚ)
       (shape item_type : String) (bd : BinData),
       lookupBin bins bin_id = some bd →
       fits_in_bin bd x y width height = false →
       place_item_sync bins item_id bin_id x y width height shape item_type =
         (noFitMsg item_id bin_id, bins)) ∧
    (∀ item_id bin_id other_id : Nat,
       noFitMsg item_id bin_id ≠ overlapMsg item_id other_id) := by
  refine ⟨?_, noFit_ne_overlap⟩
  intro bins item_id bin_id x y width height shape item_type bd hl hfit
  exact place_item_sync_noFit hl hfit

/-- Witness for C5: item 2 at (200,0,50,50) in bin 0 both fails fit
(200+50 > 220) and would overlap the existing item at (180,0,50,50); it is
rejected with the does-not-fit outcome, not the overlap one. -/
theorem C5_fit_precedes_overlap_witness :
    place_item_sync [(0, ⟨220, 220, [⟨1, "Rectangle A", 0, 180, 0, 50, 50, "RECTANGLE"⟩]⟩)]
        2 0 200 0 50 50 "RECTANGLE" "Rectangle B" =
      (noFitMsg 2 0,
       [(0, ⟨220, 220, [⟨1, "Rectangle A", 0, 180, 0, 50, 50, "RECTANGLE"⟩]⟩)]) ∧
    items_overlap ⟨2, "Rectangle B", 0, 200, 0, 50, 50, "RECTANGLE"⟩
      ⟨1, "Rectangle A", 0, 180, 0, 50, 50, "RECTANGLE"⟩ = true :=
  ⟨C5_fit_precedes_overlap.1 _ 2 0 200 0 50 50 "RECTANGLE" "Rectangle B"
      ⟨220, 220, [⟨1, "Rectangle A", 0, 180, 0, 50, 50, "RECTANGLE"⟩]⟩ rfl
      (by norm_num [fits_in_bin]),
   by norm_num [items_overlap]⟩

/-- Claim C10, bin existence precedes the geometric checks: a placement whose
target bin id is not configured returns the bin-missing rejection with
unchanged state, for every geometry of the candidate — neither the fit test
nor the overlap scan can influence the outcome. -/
theorem C10_bin_existence_first :
    ∀ (bins : SimState) (item_id bin_id : Nat) (x y width height : ℚ)
      (shape item_type : String),
      lookupBin bins bin_id = none →
      place_item_sync bins item_id bin_id x y width height shape item_type =
        (binMissingMsg bin_id, bins) := by
  intro bins item_id bin_id x y width height shape item_type hl
  unfold place_item_sync
  rw [hl]

/-- Witness for C10: bin 99 does not exist; an item whose geometry would also
fail the fit test is nonetheless rejected with the bin-missing outcome. -/
theorem C10_bin_existence_first_witness :
    place_item_sync initBins 7 99 300 300 50 50 "RECTANGLE" "Rectangle A" =
      (binMissingMsg 99, initBins) :=
  C10_bin_existence_first initBins 7 99 300 300 50 50 "RECTANGLE" "Rectangle A" rfl

/-- Claim C2, no-overlap invariant: `items_overlap` is exactly the negated
separation disjunction; a candidate that overlaps some item already in the
target bin leaves the state unchanged; and in every state reachable from the
initial configuration the items of each bin are pairwise non-overlapping
(items of different bins are never compared — the invariant is per bin). -/
theorem C2_no_overlap_invariant :
    (∀ a b : PlacedItem,
       items_overlap a b = true ↔
         ¬ (a.x + a.width ≤ b.x ∨ b.x + b.width ≤ a.x ∨
            a.y + a.height ≤ b.y ∨ b.y + b.height ≤ a.y)) ∧
    (∀ (bins : SimState) (item_id bin_id : Nat) (x y width height : ℚ)
       (shape item_type : String) (bd : BinData),
       lookupBin bins bin_id = some bd →
       (∃ e ∈ bd.items,
          items_overlap ⟨item_id, item_type, bin_id, x, y, width, height, shape⟩ e = true) →
       (place_item_sync bins item_id bin_id x y width height shape item_type).2 = bins) ∧
    (∀ cs : List Command, NoOverlapOK (applyAll initBins cs)) := by
  refine ⟨items_overlap_eq_true_iff, ?_, ?_⟩
  · intro bins item_id bin_id x y width height shape item_type bd hl hov
    rcases place_item_sync_spec bins item_id bin_id x y width height shape item_type with
      ⟨_, heq⟩ | ⟨bd', _, _, heq⟩ | ⟨bd', e, _, _, _, _, heq⟩ | ⟨bd', hl', _, hnone, heq⟩
    · rw [heq]
    · rw [heq]
    · rw [heq]
    · obtain ⟨e, he, hetrue⟩ := hov
      rw [hl] at hl'
      cases hl'
      exact absurd hetrue (by simp [hnone e he])
  · intro cs
    exact NoOverlapOK_applyAll initBins cs NoOverlapOK_init

/-- Witness for C2: item 2 at (25,25,50,50) overlaps item 1 at (0,0,50,50)
already in bin 0, and its placement leaves the state unchanged. -/
theorem C2_no_overlap_invariant_witness :
    (place_item_sync [(0, ⟨220, 220, [⟨1, "Rectangle A", 0, 0, 0, 50, 50, "RECTANGLE"⟩]⟩)]
        2 0 25 25 50 50 "RECTANGLE" "Rectangle B").2 =
      [(0, ⟨220, 220, [⟨1, "Rectangle A", 0, 0, 0, 50, 50, "RECTANGLE"⟩]⟩)] :=
  C2_no_overlap_invariant.2.1 _ 2 0 25 25 50 50 "RECTANGLE" "Rectangle B"
    ⟨220, 220, [⟨1, "Rectangle A", 0, 0, 0, 50, 50, "RECTANGLE"⟩]⟩ rfl
    ⟨⟨1, "Rectangle A", 0, 0, 0, 50, 50, "RECTANGLE"⟩, by simp,
      by norm_num [items_overlap]⟩

/-- Claim C4 (code bug), outcome observability: the public `place_item` API
returns the fixed string `"Placed item <i> in bin <b> at (<x>, <y>)"`,
computed before any validation and independent of the simulation state, so
the issuer can never observe the actual outcome from the returned value.  At
the failing input — placing item 7 into the never-configured bin 99 — the
API answers with that success-looking string while the dispatch loop rejects
the command (`place_item_sync` returns the bin-missing rejection and
`execute_command` leaves the state unchanged). -/
theorem C4_outcome_not_observable :
    (∀ (item_id bin_id : Nat) (x y width height : ℚ) (shape item_type : String),
       (place_item item_id bin_id x y width height shape item_type).1 =
         "Placed item " ++ toString item_id ++ " in bin " ++ toString bin_id ++
           " at (" ++ toString x ++ ", " ++ toString y ++ ")") ∧
    (place_item 7 99 0 0 10 10 "RECTANGLE" "Rectangle A").1 =
      "Placed item 7 in bin 99 at (0, 0)" ∧
    (place_item 7 99 0 0 10 10 "RECTANGLE" "Rectangle A").2 =
      Command.place 7 99 0 0 10 10 "RECTANGLE" "Rectangle A" ∧
    execute_command initBins (place_item 7 99 0 0 10 10 "RECTANGLE" "Rectangle A").2 =
      initBins ∧
    (place_item_sync initBins 7 99 0 0 10 10 "RECTANGLE" "Rectangle A").1 =
      binMissingMsg 99 := by
  refine ⟨fun item_id bin_id x y width height shape item_type => rfl, ?_, rfl, ?_, ?_⟩
  · rfl
  · norm_num [execute_command, place_item, place_item_sync, lookupBin, initBins]
  · norm_num [place_item_sync, lookupBin, initBins]

/-- Counterexample to C6 as stated: the target bin 99 is not configured and
the command is rejected, yet the rejection string is not the contract string
`"bin 99 does not exist"` (the source emits `"Error: Bin 99 does not exist"`). -/
theorem C6_counterexample :
    lookupBin initBins 99 = none ∧
    (place_item_sync initBins 7 99 0 0 10 10 "RECTANGLE" "Rectangle A").1 ≠
      "bin 99 does not exist" :=
  ⟨rfl, by decide⟩

/-- Claim C6 (corrected), stable reason strings: every rejected placement
returns exactly one of `"Error: Bin <id> does not exist"`,
`"Error: Item <id> does not fit in bin <bin_id>"` and
`"Error: Item <id> overlaps with existing item <other_id>"` with the ids
substituted, where `<other_id>` is the id of some item already in the target
bin; the three string families are pairwise distinct for any ids. -/
theorem C6_reason_strings :
    (∀ (bins : SimState) (item_id bin_id : Nat) (x y width height : ℚ)
       (shape item_type : String),
       (place_item_sync bins item_id bin_id x y width height shape item_type).1 ≠
         successMsg item_id bin_id →
       (place_item_sync bins item_id bin_id x y width height shape item_type).1 =
           binMissingMsg bin_id ∨
         (place_item_sync bins item_id bin_id x y width height shape item_type).1 =
           noFitMsg item_id bin_id ∨
         ∃ bd e, lookupBin bins bin_id = some bd ∧ e ∈ bd.items ∧
           (place_item_sync bins item_id bin_id x y width height shape item_type).1 =
             overlapMsg item_id e.item_id) ∧
    (∀ item_id bin_id other_id : Nat,
       binMissingMsg bin_id ≠ noFitMsg item_id bin_id ∧
       binMissingMsg bin_id ≠ overlapMsg item_id other_id ∧
       noFitMsg item_id bin_id ≠ overlapMsg item_id other_id) := by
  constructor
  · intro bins item_id bin_id x y width height shape item_type hne
    rcases place_item_sync_spec bins item_id bin_id x y width height shape item_type with
      ⟨_, heq⟩ | ⟨bd, _, _, heq⟩ | ⟨bd, e, hl, _, he, _, heq⟩ | ⟨bd, _, _, _, heq⟩
    · exact Or.inl (by rw [heq])
    · exact Or.inr (Or.inl (by rw [heq]))
    · exact Or.inr (Or.inr ⟨bd, e, hl, he, by rw [heq]⟩)
    · exact absurd (by rw [heq]) hne
  · intro item_id bin_id other_id
    exact ⟨binMissing_ne_noFit bin_id item_id bin_id,
      binMissing_ne_overlap bin_id item_id other_id,
      noFit_ne_overlap item_id bin_id other_id⟩

/-- Witness for C6: the rejection of the bin-99 placement carries one of the
three contract strings (here the bin-missing one). -/
theorem C6_reason_strings_witness :
    (place_item_sync initBins 7 99 0 0 10 10 "RECTANGLE" "Rectangle A").1 =
        binMissingMsg 99 ∨
      (place_item_sync initBins 7 99 0 0 10 10 "RECTANGLE" "Rectangle A").1 =
        noFitMsg 7 99 ∨
      ∃ bd e, lookupBin initBins 99 = some bd ∧ e ∈ bd.items ∧
        (place_item_sync initBins 7 99 0 0 10 10 "RECTANGLE" "Rectangle A").1 =
          overlapMsg 7 e.item_id :=
  C6_reason_strings.1 initBins 7 99 0 0 10 10 "RECTANGLE" "Rectangle A" (by decide)

/-- Claim C7, snapshot statistics: in every snapshot, a bin view with
positive area reports utilization `(Σ item.width × item.height) / (width ×
height) × 100` over the bin's items — bounding-box areas, shape kind never
consulted — a bin view with zero area reports 0, and the overall utilization
is the sum of the per-bin utilizations divided by the bin count
unconditionally, hence a well-defined arithmetic mean exactly when at least
one bin is configured. -/
theorem C7_snapshot_statistics :
    ∀ bins : SimState,
      (∀ q ∈ (get_simulation_state bins).bins,
         (q.2.width * q.2.height = 0 → q.2.utilization = 0) ∧
         (0 < q.2.width * q.2.height →
            q.2.utilization =
              ((q.2.items.map (fun item => item.width * item.height)).sum /
                 (q.2.width * q.2.height)) * 100)) ∧
      (get_simulation_state bins).total_utilization =
        (((get_simulation_state bins).bins.map (fun q => q.2.utilization)).sum) /
          ((bins.length : ℚ)) ∧
      (bins ≠ [] → ((bins.length : ℚ) ≠ 0)) := by
  intro bins
  refine ⟨?_, ?_, ?_⟩
  · intro q hq
    simp only [get_simulation_state, List.mem_map] at hq
    obtain ⟨p, _, rfl⟩ := hq
    constructor
    · intro hzero
      simp only [bin_utilization]
      rw [if_neg]
      simp only at hzero
      rw [hzero]
      exact lt_irrefl 0
    · intro hpos
      simp only [bin_utilization]
      rw [if_pos hpos]
  · simp [get_simulation_state, List.map_map]
    rfl
  · intro hne
    have : bins.length ≠ 0 := fun h => hne (List.length_eq_zero.mp h)
    exact_mod_cast this

/-- Witness for C7: in a snapshot of a state with a degenerate 0×0 bin and a
10×10 bin holding one 5×5 item, the zero-area bin reports utilization 0, the
other reports 25, and the bin count is a nonzero divisor. -/
theorem C7_snapshot_statistics_witness :
    bin_utilization ⟨0, 0, []⟩ = 0 ∧
    bin_utilization ⟨10, 10, [⟨1, "Rectangle A", 1, 0, 0, 5, 5, "RECTANGLE"⟩]⟩ = 25 ∧
    ((([(0, (⟨0, 0, []⟩ : BinData)),
        (1, (⟨10, 10, [⟨1, "Rectangle A", 1, 0, 0, 5, 5, "RECTANGLE"⟩]⟩ : BinData))] :
          SimState).length : ℚ) ≠ 0) := by
  have h := C7_snapshot_statistics
    [(0, (⟨0, 0, []⟩ : BinData)),
     (1, (⟨10, 10, [⟨1, "Rectangle A", 1, 0, 0, 5, 5, "RECTANGLE"⟩]⟩ : BinData))]
  refine ⟨?_, ?_, h.2.2 (by simp)⟩
  · have h0 := (h.1 (0, ⟨0, 0, [], bin_utilization ⟨0, 0, []⟩⟩)
      (by simp [get_simulation_state])).1 (by norm_num)
    simpa using h0
  · have h1 := (h.1 (1, ⟨10, 10, [⟨1, "Rectangle A", 1, 0, 0, 5, 5, "RECTANGLE"⟩],
        bin_utilization ⟨10, 10, [⟨1, "Rectangle A", 1, 0, 0, 5, 5, "RECTANGLE"⟩]⟩⟩)
      (by simp [get_simulation_state])).2 (by norm_num)
    simp only at h1
    rw [h1]
    norm_num

/-- Claim C8, reset: resetting preserves every bin's id, dimensions and
position, empties every bin's item collection, is idempotent, and the
snapshot taken after a reset reports zero items and zero overall
utilization. -/
theorem C8_reset :
    ∀ bins : SimState,
      ((reset_simulation_sync bins).map (fun p => (p.1, p.2.width, p.2.height)) =
         bins.map (fun p => (p.1, p.2.width, p.2.height))) ∧
      ((reset_simulation_sync bins).map (fun p => p.2.items) =
         bins.map (fun _ => ([] : List PlacedItem))) ∧
      reset_simulation_sync (reset_simulation_sync bins) = reset_simulation_sync bins ∧
      (get_simulation_state (reset_simulation_sync bins)).total_items = 0 ∧
      (get_simulation_state (reset_simulation_sync bins)).total_utilization = 0 := by
  intro bins
  refine ⟨by simp [reset_simulation_sync, List.map_map], ?_, ?_, ?_, ?_⟩
  · simp only [reset_simulation_sync, List.map_map]
    rfl
  · simp [reset_simulation_sync, List.map_map]
  · simp only [get_simulation_state, reset_simulation_sync, List.map_map]
    refine List.sum_eq_zero ?_
    intro x hx
    rw [List.mem_map] at hx
    obtain ⟨p, _, rfl⟩ := hx
    rfl
  · simp only [get_simulation_state, reset_simulation_sync, List.map_map]
    have hz : ((bins.map
        ((fun p => bin_utilization p.2) ∘ fun p => (p.1, { p.2 with items := [] }))).sum : ℚ) = 0 := by
      refine List.sum_eq_zero ?_
      intro q hq
      simp only [List.mem_map, Function.comp] at hq
      obtain ⟨p, _, rfl⟩ := hq
      simp [bin_utilization]
    rw [hz]
    simp

/-- Counterexample to C9 as stated: in the §8 scenario the rejection string
for item 2 is not the quoted `"item 2 overlaps with existing item 1"` (the
source emits `"Error: Item 2 overlaps with existing item 1"`), and bin 0's
reported utilization after the scenario is 1250/121 ≈ 10.33, not ≈ 1.03. -/
theorem C9_counterexample :
    (place_item_sync scenario_s1 2 0 25 25 50 50 "RECTANGLE" "Rectangle B").1 ≠
      "item 2 overlaps with existing item 1" ∧
    (lookupBin scenario_s3 0).map bin_utilization = some (1250/121) ∧
    (10 : ℚ) < 1250/121 := by
  refine ⟨?_, ?_, by norm_num⟩
  · have hmsg : (place_item_sync scenario_s1 2 0 25 25 50 50 "RECTANGLE" "Rectangle B").1 =
        overlapMsg 2 1 := by
      norm_num [scenario_s1, place_item_sync, lookupBin, updateBin, initBins,
        fits_in_bin, items_overlap, List.find?]
    rw [hmsg]
    decide
  · norm_num [scenario_s3, scenario_s1, place_item_sync, lookupBin, updateBin, initBins,
      fits_in_bin, items_overlap, List.find?, bin_utilization]

/-- Claim C9 (corrected), scenario: from the initial state, placing item 1 at
(0,0,50,50) in the 220×220 bin 0 succeeds; placing item 2 at (25,25,50,50) is
rejected with reason `"Error: Item 2 overlaps with existing item 1"` and
changes nothing; placing item 3 at (60,0,50,50) succeeds; and the snapshot
then reports bin 0 utilization (2500+2500)/(220×220)×100 = 1250/121 ≈ 10.33
(the other bins report 0). -/
theorem C9_scenario :
    (place_item_sync initBins 1 0 0 0 50 50 "RECTANGLE" "Rectangle A").1 =
      successMsg 1 0 ∧
    place_item_sync scenario_s1 2 0 25 25 50 50 "RECTANGLE" "Rectangle B" =
      (overlapMsg 2 1, scenario_s1) ∧
    (place_item_sync scenario_s1 3 0 60 0 50 50 "RECTANGLE" "Rectangle C").1 =
      successMsg 3 0 ∧
    (get_simulation_state scenario_s3).bins.map (fun q => (q.1, q.2.utilization)) =
      [(0, 1250/121), (1, 0), (2, 0), (3, 0)] ∧
    (1250 : ℚ)/121 = (2500 + 2500) / (220 * 220) * 100 := by
  refine ⟨?_, ?_, ?_, ?_, by norm_num⟩ <;>
    norm_num [scenario_s3, scenario_s1, get_simulation_state, bin_utilization,
      place_item_sync, lookupBin, updateBin, initBins, fits_in_bin,
      items_overlap, List.find?]
